import Mathlib

/-
Verification of the device/surface negotiation and resource-lifetime logic
of the Vulkan bootstrap program in src/main.cpp.

The C++ source is shallowly embedded below: driver-reported data (queue
families, surface formats, capabilities) becomes plain structures, the
App member functions become pure Lean functions over those structures,
and uint32_t arithmetic is Nat arithmetic reduced modulo 2^32 where the
source can overflow.  Vulkan enum constants keep their numeric values
from vulkan_core.h.
-/

/-- 2^32, the modulus of uint32_t arithmetic. -/
def U32 : Nat := 4294967296

/-- UINT32_MAX, i.e. std::numeric_limits of uint32_t max(), 2^32 - 1. -/
def UINT32_MAX : Nat := 4294967295

/-- The cast (uint32_t)x applied to a C int x: reduction modulo 2^32. -/
def toUint32 (x : Int) : Nat := (x % (U32 : Int)).toNat

/-- VK_FORMAT_UNDEFINED = 0. -/
def VK_FORMAT_UNDEFINED : Nat := 0

/-- VK_FORMAT_B8G8R8A8_UNORM = 44. -/
def VK_FORMAT_B8G8R8A8_UNORM : Nat := 44

/-- VK_COLOR_SPACE_SRGB_NONLINEAR_KHR = 0. -/
def VK_COLOR_SPACE_SRGB_NONLINEAR_KHR : Nat := 0

/-- App::WIDTH, the requested window width. -/
def WIDTH : Nat := 800

/-- App::HEIGHT, the requested window height. -/
def HEIGHT : Nat := 600

/-- struct QueueFamilyIndices from main.cpp: an int per role, -1 meaning
the role is unresolved. -/
structure QueueFamilyIndices where
  graphicsFamily : Int := -1
  presentFamily : Int := -1
deriving DecidableEq

/-- QueueFamilyIndices::isComplete: both roles have a non-negative index. -/
def QueueFamilyIndices.isComplete (s : QueueFamilyIndices) : Bool :=
  decide (0 ≤ s.graphicsFamily) && decide (0 ≤ s.presentFamily)

/-- One VkQueueFamilyProperties entry together with the presentSupport
answer vkGetPhysicalDeviceSurfaceSupportKHR gives for this family on the
window surface.  queueFlags is the raw bitmask; VK_QUEUE_GRAPHICS_BIT is
bit 0. -/
structure QueueFamily where
  queueCount : Nat
  queueFlags : Nat
  presentSupport : Bool
deriving DecidableEq

/-- The body of the loop in App::findQueueFamilies for the family at
index i: record i as the graphics candidate when the family has a queue
and the graphics bit, and independently record i as the present
candidate when the family has a queue and the driver reports present
support. -/
def recordFamily (qf : QueueFamily) (i : Int) (ind : QueueFamilyIndices) : QueueFamilyIndices :=
  let ind1 := if decide (0 < qf.queueCount) && qf.queueFlags.testBit 0 then
      { ind with graphicsFamily := i } else ind
  if decide (0 < qf.queueCount) && qf.presentSupport then
      { ind1 with presentFamily := i } else ind1

/-- The loop of App::findQueueFamilies: process families in order,
breaking as soon as the indices are complete. -/
def findQueueFamiliesAux : List QueueFamily → Int → QueueFamilyIndices → QueueFamilyIndices
  | [], _, ind => ind
  | qf :: rest, i, ind =>
    if (recordFamily qf i ind).isComplete then recordFamily qf i ind
    else findQueueFamiliesAux rest (i + 1) (recordFamily qf i ind)

/-- App::findQueueFamilies: scan the device-reported families starting
from index 0 with both roles unresolved. -/
def findQueueFamilies (queueFamilies : List QueueFamily) : QueueFamilyIndices :=
  findQueueFamiliesAux queueFamilies 0 {}

/-- VkSurfaceFormatKHR: a (format, color space) pair. -/
structure VkSurfaceFormatKHR where
  format : Nat
  colorSpace : Nat
deriving DecidableEq

/-- The preferred pairing {VK_FORMAT_B8G8R8A8_UNORM,
VK_COLOR_SPACE_SRGB_NONLINEAR_KHR} hard-coded in
App::chooseSwapSurfaceFormat. -/
def preferredFormat : VkSurfaceFormatKHR :=
  { format := VK_FORMAT_B8G8R8A8_UNORM, colorSpace := VK_COLOR_SPACE_SRGB_NONLINEAR_KHR }

/-- The scan predicate of App::chooseSwapSurfaceFormat: both fields
equal the preferred pairing. -/
def preferredMatchB (af : VkSurfaceFormatKHR) : Bool :=
  af.format == VK_FORMAT_B8G8R8A8_UNORM && af.colorSpace == VK_COLOR_SPACE_SRGB_NONLINEAR_KHR

/-- App::chooseSwapSurfaceFormat.  The source indexes availableFormats[0]
unconditionally in its fallback, which is out of bounds on an empty
vector; the embedding returns none there.  A singleton list whose entry
has format VK_FORMAT_UNDEFINED (size() == 1 && [0].format == UNDEFINED)
yields the preferred pairing; otherwise the first exact preferred match
is returned, else the first element. -/
def chooseSwapSurfaceFormat : List VkSurfaceFormatKHR → Option VkSurfaceFormatKHR
  | [] => none
  | f0 :: rest =>
    if rest.isEmpty && (f0.format == VK_FORMAT_UNDEFINED) then
      some preferredFormat
    else
      match (f0 :: rest).find? preferredMatchB with
      | some af => some af
      | none => some f0

/-- VkExtent2D. -/
structure VkExtent2D where
  width : Nat
  height : Nat
deriving DecidableEq

/-- The fields of VkSurfaceCapabilitiesKHR read by the program. -/
structure VkSurfaceCapabilitiesKHR where
  minImageCount : Nat
  maxImageCount : Nat
  currentExtent : VkExtent2D
  minImageExtent : VkExtent2D
  maxImageExtent : VkExtent2D
deriving DecidableEq

/-- App::chooseSwapExtent: the driver-reported currentExtent is returned
unless its width equals UINT32_MAX, in which case the window size
(WIDTH, HEIGHT) is clamped componentwise with
max(minImageExtent, min(maxImageExtent, window)). -/
def chooseSwapExtent (capabilities : VkSurfaceCapabilitiesKHR) : VkExtent2D :=
  if capabilities.currentExtent.width ≠ UINT32_MAX then
    capabilities.currentExtent
  else
    { width := max capabilities.minImageExtent.width
          (min capabilities.maxImageExtent.width WIDTH),
      height := max capabilities.minImageExtent.height
          (min capabilities.maxImageExtent.height HEIGHT) }

/-- The image-count computation at the top of App::createSwapChain:
uint32_t imageCount = minImageCount + 1 (wrapping mod 2^32), clamped
down to maxImageCount when that bound is nonzero. -/
def requestedImageCount (minImageCount maxImageCount : Nat) : Nat :=
  let imageCount := (minImageCount + 1) % U32
  if decide (0 < maxImageCount) && decide (maxImageCount < imageCount) then
    maxImageCount
  else
    imageCount

/-- VkSharingMode: VK_SHARING_MODE_EXCLUSIVE = 0,
VK_SHARING_MODE_CONCURRENT = 1. -/
inductive VkSharingMode where
  | exclusive
  | concurrent
deriving DecidableEq

/-- The sharing-related fields of the VkSwapchainCreateInfoKHR filled in
by App::createSwapChain.  The zero-initialized struct leaves
queueFamilyIndexCount at 0 and pQueueFamilyIndices null (embedded as the
empty list). -/
structure SwapChainSharingConfig where
  imageSharingMode : VkSharingMode
  queueFamilyIndexCount : Nat
  pQueueFamilyIndices : List Nat
deriving DecidableEq

/-- The queue-sharing decision in App::createSwapChain: concurrent mode
listing both families (each cast to uint32_t) when graphics and present
differ, exclusive mode with no list when they coincide. -/
def swapChainSharingConfig (ind : QueueFamilyIndices) : SwapChainSharingConfig :=
  if ind.graphicsFamily ≠ ind.presentFamily then
    { imageSharingMode := VkSharingMode.concurrent,
      queueFamilyIndexCount := 2,
      pQueueFamilyIndices := [toUint32 ind.graphicsFamily, toUint32 ind.presentFamily] }
  else
    { imageSharingMode := VkSharingMode.exclusive,
      queueFamilyIndexCount := 0,
      pQueueFamilyIndices := [] }

/-- The App::deviceExtensions constant: the swapchain extension name. -/
def deviceExtensions : List String := ["VK_KHR_swapchain"]

/-- One enumerated VkPhysicalDevice as the program observes it: its
queue families (with per-family present support for the window surface),
its available extension names, and the surface formats and present modes
reported for it by querySwapChainSupport.  Present modes are the raw
VkPresentModeKHR enum values. -/
structure PhysicalDevice where
  queueFamilies : List QueueFamily
  availableExtensions : List String
  formats : List VkSurfaceFormatKHR
  presentModes : List Nat
deriving DecidableEq

/-- App::checkDeviceExtensionSupport: the set of required extensions
minus the available ones must be empty. -/
def checkDeviceExtensionSupport (dev : PhysicalDevice) : Bool :=
  (deviceExtensions.filter (fun e => !(dev.availableExtensions.contains e))).isEmpty

/-- App::isDeviceSuitable: complete queue families, supported
extensions, and (only checked when the extensions are supported) a
non-empty format list and non-empty present-mode list. -/
def isDeviceSuitable (dev : PhysicalDevice) : Bool :=
  (findQueueFamilies dev.queueFamilies).isComplete
    && checkDeviceExtensionSupport dev
    && (if checkDeviceExtensionSupport dev then
          !dev.formats.isEmpty && !dev.presentModes.isEmpty
        else false)

/-- The two failure modes of App::pickPhysicalDevice: "Unable to find
Vulkan compatible hardware!!" on an empty enumeration, "Unable to find a
suitable device!!" when no candidate passes isDeviceSuitable. -/
inductive PickError where
  | noDevicesFound
  | noSuitableDevice
deriving DecidableEq

/-- App::pickPhysicalDevice: fail on an empty enumeration before any
filtering, otherwise take the first device passing isDeviceSuitable,
failing when there is none. -/
def pickPhysicalDevice (devices : List PhysicalDevice) : Except PickError PhysicalDevice :=
  if devices.isEmpty then
    Except.error PickError.noDevicesFound
  else
    match devices.find? isDeviceSuitable with
    | some dev => Except.ok dev
    | none => Except.error PickError.noSuitableDevice

/-- The three suitability predicates of the spec, stated independently:
complete queue-family roles, all required device extensions present, and
non-empty surface-format and present-mode lists. -/
def suitableSpec (dev : PhysicalDevice) : Prop :=
  (findQueueFamilies dev.queueFamilies).isComplete = true
    ∧ checkDeviceExtensionSupport dev = true
    ∧ dev.formats ≠ [] ∧ dev.presentModes ≠ []

instance (dev : PhysicalDevice) : Decidable (suitableSpec dev) := by
  unfold suitableSpec; infer_instance

/-- The state of one VDeleter<T>: object is none exactly when it holds
VK_NULL_HANDLE. -/
structure VDeleterState where
  object : Option Nat := none
deriving DecidableEq

/-- VDeleter::cleanup: invoke the deleter only when the object is not
VK_NULL_HANDLE, then null the object.  The second component counts the
deleter invocations this call performs.  The destructor ~VDeleter simply
calls cleanup. -/
def VDeleterState.cleanup (s : VDeleterState) : VDeleterState × Nat :=
  match s.object with
  | some _ => ({ object := none }, 1)
  | none => ({ object := none }, 0)

/-- Running cleanup over a whole collection of managed handles, as the
destructor of a container of VDeleters does: the resulting states and
the per-handle deleter invocation counts. -/
def teardown (hs : List VDeleterState) : List VDeleterState × List Nat :=
  (hs.map (fun h => h.cleanup.1), hs.map (fun h => h.cleanup.2))

/-- The failures of the initialization sequence named in the spec's
error taxonomy, each thrown somewhere in App::run's call tree. -/
inductive InitFailure where
  | unsupportedValidationLayer
  | instanceCreationFailed
  | surfaceCreationFailed
  | noDevicesFoundFailure
  | noSuitableDeviceFailure
  | deviceCreationFailed
  | swapchainCreationFailed
  | imageViewCreationFailed
  | shaderFileUnreadable
  | pipelineLayoutCreationFailed
deriving DecidableEq

/-- The static type of the C++ exception each failure site throws.  All
sites construct a std::runtime_error except App::readFile, whose
statement `throw ("Unable to open file!!")` throws a bare const char
pointer. -/
inductive CppException where
  | runtimeError (msg : String)
  | constCharPtr (msg : String)
deriving DecidableEq

/-- The exception each taxonomy failure raises, with the exact message
from main.cpp. -/
def thrownException : InitFailure → CppException
  | InitFailure.unsupportedValidationLayer =>
      CppException.runtimeError "Validation layers requested, but not available!!"
  | InitFailure.instanceCreationFailed =>
      CppException.runtimeError "Failed to create instance!!"
  | InitFailure.surfaceCreationFailed =>
      CppException.runtimeError "Unable to create the window surafce!!"
  | InitFailure.noDevicesFoundFailure =>
      CppException.runtimeError "Unable to find Vulkan compatible hardware!!"
  | InitFailure.noSuitableDeviceFailure =>
      CppException.runtimeError "Unable to find a suitable device!!"
  | InitFailure.deviceCreationFailed =>
      CppException.runtimeError "Unable to create the logical device!!"
  | InitFailure.swapchainCreationFailed =>
      CppException.runtimeError "Unable to create the swap chain!!"
  | InitFailure.imageViewCreationFailed =>
      CppException.runtimeError "Unable to create image views!!"
  | InitFailure.shaderFileUnreadable =>
      CppException.constCharPtr "Unable to open file!!"
  | InitFailure.pipelineLayoutCreationFailed =>
      CppException.runtimeError "Unable to create the pipeline layout!!"

/-- What the process observably does once app.run() finishes or throws. -/
inductive ProcessOutcome where
  | exitSuccess
  | exitFailureWithMessage (msg : String)
  | terminatedUncaught (e : CppException)
deriving DecidableEq

/-- The main function of main.cpp: its only handler is
`catch (const std::runtime_error& e)`, which prints e.what() and returns
EXIT_FAILURE.  Any exception of another type propagates out of main and
terminates the process. -/
def runMain : Except CppException Unit → ProcessOutcome
  | Except.ok _ => ProcessOutcome.exitSuccess
  | Except.error (CppException.runtimeError msg) => ProcessOutcome.exitFailureWithMessage msg
  | Except.error e => ProcessOutcome.terminatedUncaught e

/-- Fixture: a device that fails every suitability predicate. -/
def badDevice : PhysicalDevice :=
  { queueFamilies := [], availableExtensions := [], formats := [], presentModes := [] }

/-- Fixture: a device satisfying all three suitability predicates. -/
def goodDevice : PhysicalDevice :=
  { queueFamilies := [{ queueCount := 1, queueFlags := 1, presentSupport := true }],
    availableExtensions := ["VK_KHR_swapchain"],
    formats := [{ format := 44, colorSpace := 0 }],
    presentModes := [2] }

/-- Fixture: capabilities advertising the follow-the-window sentinel
with a [1,400] x [1,400] extent range. -/
def capSentinel : VkSurfaceCapabilitiesKHR :=
  { minImageCount := 2, maxImageCount := 3,
    currentExtent := { width := UINT32_MAX, height := UINT32_MAX },
    minImageExtent := { width := 1, height := 1 },
    maxImageExtent := { width := 400, height := 400 } }

/-- Fixture: capabilities whose currentExtent has width UINT32_MAX but
height 5, so the extent is not the all-bits-set sentinel as a whole. -/
def capMixed : VkSurfaceCapabilitiesKHR :=
  { minImageCount := 2, maxImageCount := 3,
    currentExtent := { width := UINT32_MAX, height := 5 },
    minImageExtent := { width := 1, height := 1 },
    maxImageExtent := { width := 400, height := 400 } }

/-- Helper: a cleanup call always leaves the handle in the null state. -/
theorem cleanup_fst (s : VDeleterState) : s.cleanup.1 = { object := none } := by
  cases h : s.object <;> simp [VDeleterState.cleanup, h]

/-- Helper: a cleanup call invokes the deleter at most once. -/
theorem cleanup_snd_le_one (s : VDeleterState) : s.cleanup.2 ≤ 1 := by
  cases h : s.object <;> simp [VDeleterState.cleanup, h]

/-- C7: QueueFamilyIndices.isComplete() returns true exactly when both
the graphics index and the present index are non-negative.  This
snapshot always creates a window surface (createSurface runs
unconditionally in initVulkan), so the surfaced configuration is the
only one, and both roles are required. -/
theorem isComplete_iff (s : QueueFamilyIndices) :
    s.isComplete = true ↔ (0 ≤ s.graphicsFamily ∧ 0 ≤ s.presentFamily) := by
  simp [QueueFamilyIndices.isComplete]

/-- C8: handle destruction is idempotent.  Cleaning up an already-null
handle is a no-op that never invokes the deleter; after any cleanup the
handle is null, so a second cleanup changes nothing and invokes the
deleter zero further times; across any two consecutive cleanups the
deleter runs at most once per handle; and tearing a whole collection of
handles down a second time performs zero deleter invocations on every
handle. -/
theorem vdeleter_cleanup_idempotent :
    (VDeleterState.cleanup { object := none } = ({ object := none }, 0))
    ∧ (∀ s : VDeleterState, s.cleanup.1.cleanup = (s.cleanup.1, 0))
    ∧ (∀ s : VDeleterState, s.cleanup.2 + s.cleanup.1.cleanup.2 ≤ 1)
    ∧ (∀ hs : List VDeleterState, (teardown (teardown hs).1).2 = hs.map (fun _ => 0)) := by
  have htwice : ∀ s : VDeleterState, s.cleanup.1.cleanup = (s.cleanup.1, 0) := by
    intro s
    rw [cleanup_fst]
    rfl
  refine ⟨rfl, htwice, ?_, ?_⟩
  · intro s
    have h2 := htwice s
    have : s.cleanup.1.cleanup.2 = 0 := by rw [h2]
    rw [this]
    simpa using cleanup_snd_le_one s
  · intro hs
    simp only [teardown, List.map_map]
    congr 1
    funext h
    simp only [Function.comp]
    rw [htwice h]

/-- C5 (code bug): main catches only std::runtime_error, so the nine
taxonomy failures thrown as std::runtime_error are caught and turned
into a printed message plus EXIT_FAILURE, but ShaderFileUnreadable is
thrown by App::readFile as a bare const char pointer
(`throw ("Unable to open file!!")`) and escapes main uncaught,
terminating the process without the message or the non-zero-exit path
the spec promises. -/
theorem main_error_handling :
    runMain (Except.error (thrownException InitFailure.unsupportedValidationLayer))
        = ProcessOutcome.exitFailureWithMessage "Validation layers requested, but not available!!"
    ∧ runMain (Except.error (thrownException InitFailure.instanceCreationFailed))
        = ProcessOutcome.exitFailureWithMessage "Failed to create instance!!"
    ∧ runMain (Except.error (thrownException InitFailure.surfaceCreationFailed))
        = ProcessOutcome.exitFailureWithMessage "Unable to create the window surafce!!"
    ∧ runMain (Except.error (thrownException InitFailure.noDevicesFoundFailure))
        = ProcessOutcome.exitFailureWithMessage "Unable to find Vulkan compatible hardware!!"
    ∧ runMain (Except.error (thrownException InitFailure.noSuitableDeviceFailure))
        = ProcessOutcome.exitFailureWithMessage "Unable to find a suitable device!!"
    ∧ runMain (Except.error (thrownException InitFailure.deviceCreationFailed))
        = ProcessOutcome.exitFailureWithMessage "Unable to create the logical device!!"
    ∧ runMain (Except.error (thrownException InitFailure.swapchainCreationFailed))
        = ProcessOutcome.exitFailureWithMessage "Unable to create the swap chain!!"
    ∧ runMain (Except.error (thrownException InitFailure.imageViewCreationFailed))
        = ProcessOutcome.exitFailureWithMessage "Unable to create image views!!"
    ∧ runMain (Except.error (thrownException InitFailure.pipelineLayoutCreationFailed))
        = ProcessOutcome.exitFailureWithMessage "Unable to create the pipeline layout!!"
    ∧ runMain (Except.error (thrownException InitFailure.shaderFileUnreadable))
        = ProcessOutcome.terminatedUncaught (CppException.constCharPtr "Unable to open file!!") :=
  ⟨rfl, rfl, rfl, rfl, rfl, rfl, rfl, rfl, rfl, rfl⟩

/-- C10: the swapchain is created in concurrent sharing mode listing
exactly the two family indices when graphics and present families
differ, and in exclusive sharing mode with no family index list when
they coincide; concurrent mode is chosen exactly in the distinct case. -/
theorem swapChainSharing_spec (ind : QueueFamilyIndices) :
    (ind.graphicsFamily ≠ ind.presentFamily →
      swapChainSharingConfig ind =
        { imageSharingMode := VkSharingMode.concurrent,
          queueFamilyIndexCount := 2,
          pQueueFamilyIndices := [toUint32 ind.graphicsFamily, toUint32 ind.presentFamily] })
    ∧ (ind.graphicsFamily = ind.presentFamily →
      swapChainSharingConfig ind =
        { imageSharingMode := VkSharingMode.exclusive,
          queueFamilyIndexCount := 0,
          pQueueFamilyIndices := [] })
    ∧ ((swapChainSharingConfig ind).imageSharingMode = VkSharingMode.concurrent
        ↔ ind.graphicsFamily ≠ ind.presentFamily) := by
  refine ⟨fun h => by simp [swapChainSharingConfig, h], fun h => by simp [swapChainSharingConfig, h], ?_⟩
  by_cases h : ind.graphicsFamily = ind.presentFamily <;> simp [swapChainSharingConfig, h]

/-- Witness for C10 at the concrete index pairs (0,0) and (0,1). -/
theorem swapChainSharing_spec_witness :
    swapChainSharingConfig { graphicsFamily := 0, presentFamily := 0 } =
      { imageSharingMode := VkSharingMode.exclusive,
        queueFamilyIndexCount := 0, pQueueFamilyIndices := [] }
    ∧ swapChainSharingConfig { graphicsFamily := 0, presentFamily := 1 } =
      { imageSharingMode := VkSharingMode.concurrent,
        queueFamilyIndexCount := 2, pQueueFamilyIndices := [toUint32 0, toUint32 1] } :=
  ⟨(swapChainSharing_spec { graphicsFamily := 0, presentFamily := 0 }).2.1 rfl,
   (swapChainSharing_spec { graphicsFamily := 0, presentFamily := 1 }).1 (by decide)⟩

/-- C3 counterexample: capMixed's currentExtent (UINT32_MAX, 5) is not
the all-bits-set sentinel, so the claim requires chooseSwapExtent to
return it exactly; the code only tests the width component, takes the
sentinel branch, and returns the clamped window size instead. -/
theorem chooseSwapExtent_claim_counterexample :
    capMixed.currentExtent ≠ ({ width := UINT32_MAX, height := UINT32_MAX } : VkExtent2D)
    ∧ chooseSwapExtent capMixed ≠ capMixed.currentExtent
    ∧ chooseSwapExtent capMixed = { width := 400, height := 400 } := by
  refine ⟨?_, ?_, ?_⟩ <;> decide

/-- C3 amended: the sentinel is detected by the width component alone.
When currentExtent.width is not UINT32_MAX the driver-reported extent is
returned exactly; when it is UINT32_MAX the resolved extent is the
(800, 600) window size clamped componentwise with
max(minImageExtent, min(maxImageExtent, window)), and whenever the
driver's extent bounds are ordered the result lies inside
[minImageExtent, maxImageExtent] componentwise. -/
theorem chooseSwapExtent_amended (cap : VkSurfaceCapabilitiesKHR) :
    (cap.currentExtent.width ≠ UINT32_MAX → chooseSwapExtent cap = cap.currentExtent)
    ∧ (cap.currentExtent.width = UINT32_MAX →
        chooseSwapExtent cap =
          { width := max cap.minImageExtent.width (min cap.maxImageExtent.width WIDTH),
            height := max cap.minImageExtent.height (min cap.maxImageExtent.height HEIGHT) })
    ∧ (cap.currentExtent.width = UINT32_MAX →
        cap.minImageExtent.width ≤ cap.maxImageExtent.width →
        cap.minImageExtent.height ≤ cap.maxImageExtent.height →
          cap.minImageExtent.width ≤ (chooseSwapExtent cap).width
          ∧ (chooseSwapExtent cap).width ≤ cap.maxImageExtent.width
          ∧ cap.minImageExtent.height ≤ (chooseSwapExtent cap).height
          ∧ (chooseSwapExtent cap).height ≤ cap.maxImageExtent.height) := by
  refine ⟨fun h => by simp [chooseSwapExtent, h], fun h => by simp [chooseSwapExtent, h], ?_⟩
  intro h hw hh
  simp only [chooseSwapExtent, h, ne_eq, not_true_eq_false, if_false]
  refine ⟨?_, ?_, ?_, ?_⟩ <;> simp <;> omega

/-- Witness for C3 at the spec's own example: window 800x600 with the
sentinel and extent range [(1,1), (400,400)] resolves to (400, 400). -/
theorem chooseSwapExtent_amended_witness :
    chooseSwapExtent capSentinel = { width := 400, height := 400 } := by
  have h := (chooseSwapExtent_amended capSentinel).2.1 rfl
  exact h.trans (by decide)

/-- C4 counterexample: with minImageCount = UINT32_MAX and
maxImageCount = 0 the uint32_t increment wraps to 0, so the requested
image count is 0 rather than the minImageCount + 1 = 2^32 the claim
demands. -/
theorem requestedImageCount_counterexample :
    requestedImageCount UINT32_MAX 0 = 0 ∧ (0 : Nat) ≠ UINT32_MAX + 1 := by
  refine ⟨?_, ?_⟩ <;> decide

/-- C4 amended: the requested image count is
min((minImageCount + 1) mod 2^32, maxImageCount) when maxImageCount is
nonzero and (minImageCount + 1) mod 2^32 when it is zero; whenever the
increment does not overflow uint32_t this is exactly
min(minImageCount + 1, maxImageCount), respectively
minImageCount + 1. -/
theorem requestedImageCount_amended (m M : Nat) :
    (0 < M → requestedImageCount m M = min ((m + 1) % U32) M)
    ∧ (M = 0 → requestedImageCount m M = (m + 1) % U32)
    ∧ (m + 1 < U32 →
        (0 < M → requestedImageCount m M = min (m + 1) M)
        ∧ (M = 0 → requestedImageCount m M = m + 1)) := by
  have hbase : ∀ hM : 0 < M, requestedImageCount m M = min ((m + 1) % U32) M := by
    intro hM
    unfold requestedImageCount
    by_cases hgt : M < (m + 1) % U32
    · simp [hM, hgt]
      omega
    · simp [hgt]
      omega
  refine ⟨hbase, ?_, ?_⟩
  · intro hM
    unfold requestedImageCount
    simp [hM]
  · intro hlt
    have hmod : (m + 1) % U32 = m + 1 := Nat.mod_eq_of_lt hlt
    constructor
    · intro hM
      rw [hbase hM, hmod]
    · intro hM
      unfold requestedImageCount
      simp [hM, hmod]

/-- Witness for C4 at the spec's own examples: (min=2, max=0) requests 3
images and (min=2, max=2) requests 2. -/
theorem requestedImageCount_amended_witness :
    requestedImageCount 2 0 = 2 + 1 ∧ requestedImageCount 2 2 = min (2 + 1) 2 :=
  ⟨((requestedImageCount_amended 2 0).2.2 (by decide)).2 rfl,
   ((requestedImageCount_amended 2 2).2.2 (by decide)).1 (by decide)⟩

/-- Helper: any format passing the scan predicate of
chooseSwapSurfaceFormat is the preferred pairing itself. -/
theorem preferredMatchB_eq (af : VkSurfaceFormatKHR) (h : preferredMatchB af = true) :
    af = preferredFormat := by
  cases af with
  | mk fm cs =>
    simp only [preferredMatchB, Bool.and_eq_true, beq_iff_eq] at h
    simp [preferredFormat, h.1, h.2]

/-- C2: on a non-empty format list the negotiator yields the preferred
(B8G8R8A8_UNORM, SRGB nonlinear) pairing when the list is a singleton
whose entry has the undefined-format sentinel; otherwise the preferred
pairing whenever it occurs anywhere in the list; otherwise the list's
first element; and it always yields some format. -/
theorem chooseSwapSurfaceFormat_spec (l : List VkSurfaceFormatKHR) (hne : l ≠ []) :
    ((∃ f0, l = [f0] ∧ f0.format = VK_FORMAT_UNDEFINED) →
        chooseSwapSurfaceFormat l = some preferredFormat)
    ∧ ((¬ ∃ f0, l = [f0] ∧ f0.format = VK_FORMAT_UNDEFINED) → preferredFormat ∈ l →
        chooseSwapSurfaceFormat l = some preferredFormat)
    ∧ ((¬ ∃ f0, l = [f0] ∧ f0.format = VK_FORMAT_UNDEFINED) → preferredFormat ∉ l →
        chooseSwapSurfaceFormat l = l.head?)
    ∧ (∃ f, chooseSwapSurfaceFormat l = some f) := by
  cases l with
  | nil => exact absurd rfl hne
  | cons f0 rest =>
    have hcondOf : (¬ ∃ f0x, f0 :: rest = [f0x] ∧ f0x.format = VK_FORMAT_UNDEFINED) →
        (rest.isEmpty && (f0.format == VK_FORMAT_UNDEFINED)) = false := by
      intro hnot
      by_contra hc
      rw [Bool.not_eq_false, Bool.and_eq_true] at hc
      obtain ⟨h1, h2⟩ := hc
      rw [List.isEmpty_iff] at h1
      exact hnot ⟨f0, by rw [h1], by simpa using h2⟩
    refine ⟨?_, ?_, ?_, ?_⟩
    · rintro ⟨g, hg, hfmt⟩
      injection hg with h1 h2
      subst h1
      subst h2
      simp [chooseSwapSurfaceFormat, hfmt]
    · intro hnot hmem
      have hcond := hcondOf hnot
      have hp : preferredMatchB preferredFormat = true := by decide
      cases hfind : (f0 :: rest).find? preferredMatchB with
      | none =>
        rw [List.find?_eq_none] at hfind
        exact absurd hp (hfind preferredFormat hmem)
      | some x =>
        have hx := List.find?_some hfind
        have hxe : x = preferredFormat := preferredMatchB_eq x hx
        simp [chooseSwapSurfaceFormat, hcond, hfind, hxe]
    · intro hnot hmem
      have hcond := hcondOf hnot
      have hfind : (f0 :: rest).find? preferredMatchB = none := by
        rw [List.find?_eq_none]
        intro x hx hpx
        exact hmem ((preferredMatchB_eq x hpx) ▸ hx)
      simp [chooseSwapSurfaceFormat, hcond, hfind]
    · cases hcond : (rest.isEmpty && (f0.format == VK_FORMAT_UNDEFINED)) with
      | true => exact ⟨preferredFormat, by simp [chooseSwapSurfaceFormat, hcond]⟩
      | false =>
        cases hfind : (f0 :: rest).find? preferredMatchB with
        | none => exact ⟨f0, by simp [chooseSwapSurfaceFormat, hcond, hfind]⟩
        | some x => exact ⟨x, by simp [chooseSwapSurfaceFormat, hcond, hfind]⟩

/-- Witness for C2 on the singleton undefined-sentinel list: the
preferred pairing is chosen regardless of the reported color space. -/
theorem chooseSwapSurfaceFormat_spec_witness :
    chooseSwapSurfaceFormat [{ format := VK_FORMAT_UNDEFINED, colorSpace := 7 }] =
      some preferredFormat :=
  (chooseSwapSurfaceFormat_spec [{ format := VK_FORMAT_UNDEFINED, colorSpace := 7 }]
      (by simp)).1
    ⟨{ format := VK_FORMAT_UNDEFINED, colorSpace := 7 }, rfl, rfl⟩

/-- Helper: once the running indices are complete the scan of
findQueueFamilies breaks, so appended families are never examined. -/
theorem findQueueFamiliesAux_append (l1 l2 : List QueueFamily) :
    ∀ (i : Int) (ind : QueueFamilyIndices), ind.isComplete = false →
      (findQueueFamiliesAux l1 i ind).isComplete = true →
      findQueueFamiliesAux (l1 ++ l2) i ind = findQueueFamiliesAux l1 i ind := by
  induction l1 with
  | nil =>
    intro i ind h1 h2
    simp only [findQueueFamiliesAux] at h2
    rw [h1] at h2
    cases h2
  | cons qf t ih =>
    intro i ind h1 h2
    rw [List.cons_append]
    cases hc : (recordFamily qf i ind).isComplete with
    | true => simp [findQueueFamiliesAux, hc]
    | false =>
      simp only [findQueueFamiliesAux, hc, Bool.false_eq_true, if_false] at h2 ⊢
      exact ih (i + 1) (recordFamily qf i ind) hc h2

/-- C6 counterexample: a family with zero queue slots for which the
driver reports presentation support is not recorded as the present
candidate, refuting the claim's "exactly when the driver reports
presentation support": the code additionally requires queueCount > 0. -/
theorem findQueueFamilies_present_counterexample :
    ({ queueCount := 0, queueFlags := 0, presentSupport := true } : QueueFamily).presentSupport
        = true
    ∧ (findQueueFamilies
        [{ queueCount := 0, queueFlags := 0, presentSupport := true }]).presentFamily = -1 := by
  refine ⟨rfl, ?_⟩
  decide

/-- C6 amended: processing one family records its index as the graphics
candidate exactly when it has a queue slot and the graphics bit, and as
the present candidate exactly when it has a queue slot and the driver
reports presentation support; and the scan stops as soon as both roles
are resolved, so families listed after the point of completion never
alter the result. -/
theorem findQueueFamilies_resolution :
    (∀ (qf : QueueFamily) (i : Int) (ind : QueueFamilyIndices),
        (recordFamily qf i ind).graphicsFamily =
          (if 0 < qf.queueCount ∧ qf.queueFlags.testBit 0 = true then i
           else ind.graphicsFamily)
      ∧ (recordFamily qf i ind).presentFamily =
          (if 0 < qf.queueCount ∧ qf.presentSupport = true then i
           else ind.presentFamily))
    ∧ (∀ (l1 l2 : List QueueFamily), (findQueueFamilies l1).isComplete = true →
        findQueueFamilies (l1 ++ l2) = findQueueFamilies l1) := by
  constructor
  · intro qf i ind
    by_cases hq : 0 < qf.queueCount <;>
      by_cases hgb : qf.queueFlags.testBit 0 = true <;>
      by_cases hp : qf.presentSupport = true <;>
      simp_all [recordFamily]
  · intro l1 l2 h
    exact findQueueFamiliesAux_append l1 l2 0 {} (by decide) h

/-- Witness for C6: a scan completed by its first family is unchanged by
appending a second family. -/
theorem findQueueFamilies_resolution_witness :
    findQueueFamilies ([{ queueCount := 1, queueFlags := 1, presentSupport := true }] ++
        [{ queueCount := 1, queueFlags := 1, presentSupport := false }]) =
      findQueueFamilies [{ queueCount := 1, queueFlags := 1, presentSupport := true }] :=
  findQueueFamilies_resolution.2
    [{ queueCount := 1, queueFlags := 1, presentSupport := true }]
    [{ queueCount := 1, queueFlags := 1, presentSupport := false }]
    (by decide)

/-- Helper: find? returns the head of the suffix when nothing before it
satisfies the predicate. -/
theorem find?_append_first {α : Type} (p : α → Bool) :
    ∀ (l1 : List α) (a : α) (l2 : List α), p a = true → (∀ x ∈ l1, p x = false) →
      (l1 ++ a :: l2).find? p = some a := by
  intro l1
  induction l1 with
  | nil =>
    intro a l2 ha _
    rw [List.nil_append]
    exact List.find?_cons_of_pos _ ha
  | cons b t ih =>
    intro a l2 ha hall
    have hb : p b = false := hall b (List.mem_cons_self b t)
    rw [List.cons_append, List.find?_cons_of_neg _ (by simp [hb])]
    exact ih a l2 ha (fun x hx => hall x (List.mem_cons_of_mem b hx))

/-- Helper: the boolean isDeviceSuitable agrees with the conjunction of
the spec's three independent suitability predicates. -/
theorem isDeviceSuitable_iff (dev : PhysicalDevice) :
    isDeviceSuitable dev = true ↔ suitableSpec dev := by
  unfold isDeviceSuitable suitableSpec
  cases hext : checkDeviceExtensionSupport dev
  · simp [hext]
  · simp [hext, List.isEmpty_iff]

/-- C1: on an empty enumeration pickPhysicalDevice fails with the
distinct NoDevicesFound error before any filtering; wherever the list
decomposes as a prefix of unsuitable devices followed by a device
satisfying all three suitability predicates, that first suitable device
is returned; and on a non-empty list with no suitable device it fails
with NoSuitableDevice. -/
theorem pickPhysicalDevice_spec (devices : List PhysicalDevice) :
    (devices = [] → pickPhysicalDevice devices = Except.error PickError.noDevicesFound)
    ∧ (∀ l1 d l2, devices = l1 ++ d :: l2 → suitableSpec d →
        (∀ x ∈ l1, ¬ suitableSpec x) →
        pickPhysicalDevice devices = Except.ok d)
    ∧ ((devices ≠ [] ∧ ∀ d ∈ devices, ¬ suitableSpec d) →
        pickPhysicalDevice devices = Except.error PickError.noSuitableDevice) := by
  refine ⟨?_, ?_, ?_⟩
  · rintro rfl
    rfl
  · rintro l1 d l2 rfl hd hl1
    have hfind : (l1 ++ d :: l2).find? isDeviceSuitable = some d := by
      refine find?_append_first isDeviceSuitable l1 d l2 ((isDeviceSuitable_iff d).mpr hd) ?_
      intro x hx
      cases hb : isDeviceSuitable x
      · rfl
      · exact absurd ((isDeviceSuitable_iff x).mp hb) (hl1 x hx)
    have hne : (l1 ++ d :: l2).isEmpty = false := by
      cases l1 <;> simp
    simp [pickPhysicalDevice, hne, hfind]
  · rintro ⟨hne, hall⟩
    have hfind : devices.find? isDeviceSuitable = none := by
      rw [List.find?_eq_none]
      intro x hx hsx
      exact hall x hx ((isDeviceSuitable_iff x).mp hsx)
    have hne2 : devices.isEmpty = false := by
      cases devices with
      | nil => exact absurd rfl hne
      | cons a t => rfl
    simp [pickPhysicalDevice, hne2, hfind]

/-- Witness for C1: with an unsuitable device enumerated first and a
suitable one second, the second device is picked. -/
theorem pickPhysicalDevice_spec_witness :
    pickPhysicalDevice [badDevice, goodDevice] = Except.ok goodDevice :=
  (pickPhysicalDevice_spec [badDevice, goodDevice]).2.1 [badDevice] goodDevice [] rfl
    (by decide) (by decide)
